import Mathlib

/-!
Shallow embedding of the nutcracker repository core, and proofs checking its
specification against the code.

Embedded source files:
* `nutcracker/core/index.py` — Element tree, schema inference engine
  (`generate_schema`, the `MissingSchemaKey` / `MissingSchemaEntry` /
  generic-exception refinement steps, and the success-time finalization).
* `nutcracker/smush/decode.py` — frame reconstruction pipeline (`clip`,
  `delta_color`, `npal`, `xpal`, `decode_frame_object`,
  `decode_compressed_frame_object`, `convert_fobj`, `generate_frames`).

External collaborators (chunk reader, frame-object parser `unobj`, pixel codec
registry `get_decoder`, zlib inflate, stream views) are parameters of the
embedding, matching the interface boundary of the specification.
-/

deriving instance DecidableEq for Except

namespace Nutcracker

/-! Part 1: schema inference engine, from `nutcracker/core/index.py`. -/

/-- Entry of a schema value set.  The Python code stores the sentinel int `10`
(`DUMMY = frozenset` of `10`) alongside real child tags, which are strings;
`CTag` mirrors that mixed set element type. -/
inductive CTag where
  | sentinel
  | real (tag : String)
deriving DecidableEq

/-- The sentinel "dummy container hypothesis" value `DUMMY = frozenset({10})`. -/
def DUMMY : Finset CTag := {CTag.sentinel}

/-- The confirmed data-leaf value `DATA = frozenset()`. -/
def DATA : Finset CTag := (∅ : Finset CTag)

/-- The schema: a Python dict from parent tag to a set of child entries,
modelled as an ordered association list (Python dicts preserve insertion
order; updates keep the position of an existing key). -/
abbrev Schema := List (String × Finset CTag)

/-- Dict lookup `schema.get(tag)`. -/
def slookup : Schema → String → Option (Finset CTag)
  | [], _ => none
  | (k, v) :: rest, t => if k = t then some v else slookup rest t

/-- Dict assignment `schema[tag] = value`: replaces in place when the key
exists, appends otherwise. -/
def setKey : Schema → String → Finset CTag → Schema
  | [], t, v => [(t, v)]
  | (k, w) :: rest, t, v =>
    if k = t then (t, v) :: rest else (k, w) :: setKey rest t v

/-- Failure classification used by `generate_schema`: the three `except`
arms.  `structural` stands for the generic `except Exception` arm, carrying
the blamed parent tag `e.ptag` attached by `exception_ptag_context`
(the root-level case, where `e.ptag` is `None`, is not modelled: the claims
under study concern failures blamed on an actual parent tag). -/
inductive WalkFailure where
  | missingSchemaKey (tag : String)
  | missingSchemaEntry (ptag : String) (tag : String)
  | structural (ptag : String)
deriving DecidableEq

/-- Outcome of one strict tree-walk attempt (`for _ in map_chunks(...)`,
with `strict=True`): success, or one classified failure. -/
inductive WalkResult where
  | success
  | failure (f : WalkFailure)
deriving DecidableEq

/-- The three `except` arms of `generate_schema`:
`MissingSchemaKey` does `schema[miss.tag] = DUMMY`;
`MissingSchemaEntry` does `schema[miss.ptag] -= DUMMY; schema[miss.ptag] |= {miss.tag}`
(a `KeyError` escapes if the parent key is absent, which the engine never
produces);
the generic arm raises `ValueError` when `schema.get(e.ptag) == DATA` and
otherwise does `schema[e.ptag] = DATA`. -/
def generate_schema_step (schema : Schema) : WalkFailure → Except String Schema
  | .missingSchemaKey t => .ok (setKey schema t DUMMY)
  | .missingSchemaEntry p t =>
    match slookup schema p with
    | some v => .ok (setKey schema p ((v \ DUMMY) ∪ {CTag.real t}))
    | none => .error "KeyError"
  | .structural p =>
    if slookup schema p = some DATA then
      .error "Cannot create schema for given file with given configuration"
    else
      .ok (setKey schema p DATA)

/-- The success-time return value of `generate_schema`:
`{ptag: set(tags) for ptag, tags in schema.items() if tags != DUMMY}`. -/
def finalize_schema (schema : Schema) : Schema :=
  schema.filter (fun kv => kv.2 ≠ DUMMY)

/-- The `while True` loop of `generate_schema`.  `walk` abstracts one strict
`map_chunks` traversal of the input (chunk reader and tree builder are
external); it receives the current schema and the stream position the loop
seeks to (`data.seek(pos, io.SEEK_SET)`) before every attempt, which is the
saved `pos = data.tell()`.  Fuel makes the loop a total function; the real
loop terminates because each refinement strictly grows schema knowledge over
a finite input. -/
def generate_schema_loop (walk : Schema → Nat → WalkResult) (pos : Nat) :
    Nat → Schema → Except String Schema
  | 0, _ => .error "out of fuel"
  | fuel + 1, schema =>
    match walk schema pos with
    | .success => .ok (finalize_schema schema)
    | .failure f =>
      match generate_schema_step schema f with
      | .ok schema2 => generate_schema_loop walk pos fuel schema2
      | .error e => .error e

/-- Entry point `generate_schema(data)`: starts from the empty schema at the
saved stream position. -/
def generate_schema (walk : Schema → Nat → WalkResult) (pos : Nat) (fuel : Nat) :
    Except String Schema :=
  generate_schema_loop walk pos fuel []

/-! Part 2: Element payload reads, from `nutcracker/core/index.py`
(`Element.read`) over the stream-view interface. -/

/-- Modelled from the spec: `StreamView` (file `nutcracker/core/stream.py` is
not part of the sources under study); section 3 describes a ByteView as a
read-only seekable window with an internal cursor, where reading advances the
cursor and seeking repositions it. -/
structure StreamView where
  data : List Nat
  pos : Nat
deriving DecidableEq

/-- Modelled from the spec: `seek(n)` repositions the cursor. -/
def StreamView.seek (s : StreamView) (n : Nat) : StreamView :=
  { s with pos := n }

/-- Modelled from the spec: `read()` returns the bytes from the cursor to the
end (or at most `n` bytes when a size argument is given) and advances the
cursor past them. -/
def StreamView.read (s : StreamView) : Option Nat → List Nat × StreamView
  | none => (s.data.drop s.pos, { s with pos := s.data.length })
  | some n => ((s.data.drop s.pos).take n, { s with pos := min (s.pos + n) s.data.length })

/-- Element node from `nutcracker/core/index.py`: tag, attribs
(offset, size, generated id), children, and the `_stream` payload view. -/
inductive Element where
  | mk (tag : String) (offset : Nat) (size : Nat) (gid : Option String)
       (children : List Element) (stream : StreamView)

/-- Accessor for the payload view `_stream`. -/
def Element.stream : Element → StreamView
  | .mk _ _ _ _ _ s => s

/-- Replaces the payload view, keeping every other field. -/
def Element.withStream : Element → StreamView → Element
  | .mk t o sz g cs _, s => .mk t o sz g cs s

/-- The read accessor of `Element`:
`self._stream.seek(0); return self._stream.read(*args)`.  The cursor motion
performed by the read is part of the element state, so the result pairs the
bytes with the updated element. -/
def Element.read (e : Element) (n : Option Nat) : List Nat × Element :=
  let s := (Element.stream e).seek 0
  let r := s.read n
  (r.1, e.withStream r.2)

/-! Part 3: frame reconstruction pipeline, from `nutcracker/smush/decode.py`. -/

/-- The function `clip(lower, upper, value)`:
`lower if value < lower else upper if value > upper else value`. -/
def clip (lower upper value : Int) : Int :=
  if value < lower then lower else if value > upper then upper else value

/-- The partial application `clip_byte = partial(clip, 0, 255)`. -/
def clip_byte (value : Int) : Int :=
  clip 0 255 value

/-- The function `delta_color(org_color, delta_color)`:
`clip_byte((129 * org_color + delta_color) // 128)`.  The Python operator
`//` is floor division on unbounded ints, which is `Int.fdiv`. -/
def delta_color (org_color delta : Int) : Int :=
  clip_byte (Int.fdiv (129 * org_color + delta) 128)

/-- Position record `image.ImagePosition` (field defaults 0), used for the
screen location of a decoded frame object. -/
structure ImagePosition where
  x1 : Int := 0
  y1 : Int := 0
  x2 : Int := 0
  y2 : Int := 0
deriving DecidableEq

/-- Pixel buffer produced by a codec (`image.Matrix`). -/
abbrev Matrix := List (List Nat)

/-- Frame-object header metadata extracted by the external parser `unobj`:
bounding box and codec selector. -/
structure FobjMeta where
  x1 : Int
  y1 : Int
  x2 : Int
  y2 : Int
  codec : Nat
deriving DecidableEq

/-- One child chunk of a frame element, as consumed by `generate_frames`:
its tag (`comp.tag`) and payload bytes (`comp.data`). -/
structure FrameComp where
  tag : String
  data : List Nat
deriving DecidableEq

/-- A frame element as consumed by `generate_frames`: the ordered child
chunks. -/
structure Frame where
  children : List FrameComp
deriving DecidableEq

/-- The external collaborators consumed by the pipeline: the frame-object
parser `unobj` (header plus pixel bytes), the codec registry `get_decoder`
(`none` models the `NotImplemented` sentinel), and zlib `decompress`
(an `error` models a raised `zlib.error`). -/
structure SmushEnv where
  unobj : List Nat → FobjMeta × List Nat
  getDecoder : Nat → Option (Int → Int → List Nat → Matrix)
  inflate : List Nat → Except String (List Nat)

/-- The fold accumulator `FrameGenCtx`.  Field defaults follow the dataclass:
`screen` defaults to `(ImagePosition(), ())` and is replaced by the result of
`convert_fobj`, which may be `None`, so its modelled type is an option (the
dataclass annotation says tuple, but `None` is assigned at runtime). -/
structure FrameGenCtx where
  palette : List Nat
  screen : Option (ImagePosition × Matrix) := some ({}, [])
  delta_pal : List Int := []
  frame : Option Frame := none
deriving DecidableEq

/-- The handler `npal(ctx, data)`: `replace(ctx, palette=tuple(data))`. -/
def npal (ctx : FrameGenCtx) (data : List Nat) : FrameGenCtx :=
  { ctx with palette := data }

/-- Little-endian signed 16-bit value from two bytes, as produced by
`struct.unpack` with format char `h`. -/
def int16OfLE (lo hi : Nat) : Int :=
  let v := lo + 256 * hi
  if v < 32768 then (v : Int) else (v : Int) - 65536

/-- Decodes consecutive little-endian int16 pairs, as `struct.unpack` of
`768` values of format `h` does over a 1536-byte buffer. -/
def unpackLE16 : List Nat → List Int
  | lo :: hi :: rest => int16OfLE lo hi :: unpackLE16 rest
  | _ => []

/-- The handler `xpal(ctx, data)`, both delta-palette forms.
Large form (`len(data) == 0x300 * 3 + 4`): asserts the marker bytes
`00 00 00 02`, unpacks 768 little-endian int16 deltas, and takes the
remaining 768 bytes as the new palette.
Small form (`len(data) == 6`): asserts the payload equals
`00 00 00 01 00 00`, asserts `delta_pal` and `palette` have `0x300` entries,
then rebuilds the palette element-wise with `delta_color`.
Any other length hits `assert False`.  Failed assertions are `error`
results. -/
def xpal (ctx : FrameGenCtx) (data : List Nat) : Except String FrameGenCtx :=
  if data.length = 0x300 * 3 + 4 then
    if data.take 4 = [0, 0, 0, 2] then
      .ok { ctx with
            delta_pal := unpackLE16 ((data.drop 4).take (2 * 0x300)),
            palette := data.drop (4 + 2 * 0x300) }
    else .error "AssertionError: large XPAL marker"
  else if data.length = 6 then
    if data = [0, 0, 0, 1, 0, 0] then
      if ctx.delta_pal.length = 0x300 then
        if ctx.palette.length = 0x300 then
          let palette := (ctx.palette.zip ctx.delta_pal).map
            (fun pd => (delta_color (pd.1 : Int) pd.2).toNat)
          .ok { ctx with palette := palette }
        else .error "AssertionError: len of ctx.palette"
      else .error "AssertionError: len of ctx.delta_pal"
    else .error "AssertionError: small XPAL marker"
  else .error "AssertionError"

/-- The function `convert_fobj(datam)`: parses the frame-object header via
`unobj`, picks width and height (`x2, y2` directly for codec 1, differences
otherwise), looks up the decoder, returns `None` when the lookup yields the
`NotImplemented` sentinel, and otherwise returns the position together with
the decoded pixels. -/
def convert_fobj (env : SmushEnv) (datam : List Nat) : Option (ImagePosition × Matrix) :=
  let meta := (env.unobj datam).1
  let data := (env.unobj datam).2
  let width := if meta.codec ≠ 1 then meta.x2 - meta.x1 else meta.x2
  let height := if meta.codec ≠ 1 then meta.y2 - meta.y1 else meta.y2
  match env.getDecoder meta.codec with
  | none => none
  | some decode =>
    some ({ x1 := meta.x1, y1 := meta.y1, x2 := meta.x2, y2 := meta.y2 },
          decode width height data)

/-- The handler `decode_frame_object(ctx, data)`:
`replace(ctx, screen=convert_fobj(data))`. -/
def decode_frame_object (env : SmushEnv) (ctx : FrameGenCtx) (data : List Nat) : FrameGenCtx :=
  { ctx with screen := convert_fobj env data }

/-- Big-endian unsigned 32-bit value of a 4-byte list, as `struct.unpack`
with format `>I` reads it. -/
def beU32 : List Nat → Nat
  | [a, b, c, d] => ((a * 256 + b) * 256 + c) * 256 + d
  | _ => 0

/-- The handler `decode_compressed_frame_object(ctx, data)`: reads the
declared decompressed size from the first 4 bytes (`struct.error` when fewer
than 4 bytes are present), inflates the remainder, asserts the inflated
length equals the declared size, and defers to `decode_frame_object`. -/
def decode_compressed_frame_object (env : SmushEnv) (ctx : FrameGenCtx) (data : List Nat) :
    Except String FrameGenCtx :=
  if data.length < 4 then .error "struct.error"
  else
    match env.inflate (data.drop 4) with
    | .error e => .error e
    | .ok inflated =>
      if inflated.length = beU32 (data.take 4) then
        .ok (decode_frame_object env ctx inflated)
      else .error "AssertionError: decompressed size"

/-- The default handler `unsupported_frame_comp(ctx, data)`: returns the
context unchanged. -/
def unsupported_frame_comp (ctx : FrameGenCtx) (_data : List Nat) : FrameGenCtx :=
  ctx

/-- One step of the per-child fold in `generate_frames`:
`DECODE_FRAME_IMAGE.get(comp.tag, unsupported_frame_comp)(ctx, comp.data)`,
with the module-level dispatch table
`NPAL / XPAL / ZFOB / FOBJ`. -/
def frame_comp_step (env : SmushEnv) (ctx : FrameGenCtx) (comp : FrameComp) :
    Except String FrameGenCtx :=
  if comp.tag = "NPAL" then .ok (npal ctx comp.data)
  else if comp.tag = "XPAL" then xpal ctx comp.data
  else if comp.tag = "ZFOB" then decode_compressed_frame_object env ctx comp.data
  else if comp.tag = "FOBJ" then .ok (decode_frame_object env ctx comp.data)
  else .ok (unsupported_frame_comp ctx comp.data)

/-- The inner `for comp in frame.children` fold of `generate_frames`; a
raised assertion aborts the generator. -/
def foldFrameComps (env : SmushEnv) : FrameGenCtx → List FrameComp → Except String FrameGenCtx
  | ctx, [] => .ok ctx
  | ctx, c :: cs =>
    match frame_comp_step env ctx c with
    | .ok ctx2 => foldFrameComps env ctx2 cs
    | .error e => .error e

/-- The per-frame body of `generate_frames`: stamp the frame into the
context (`ctx = replace(ctx, frame=frame)`), fold the children, check
`assert ctx.screen is not None`, and yield the resulting context. -/
def processFrame (env : SmushEnv) (ctx : FrameGenCtx) (frame : Frame) :
    Except String FrameGenCtx :=
  match foldFrameComps env { ctx with frame := some frame } frame.children with
  | .ok ctx2 =>
    if ctx2.screen = none then .error "AssertionError: ctx.screen is None"
    else .ok ctx2
  | .error e => .error e

/-- The `for frame in frames` loop of `generate_frames`, threading one
context across frames and collecting the yielded contexts (the Python
generator yields lazily; on a successful run the collected list is the same
sequence). -/
def generate_frames_from (env : SmushEnv) : FrameGenCtx → List Frame → Except String (List FrameGenCtx)
  | _, [] => .ok []
  | ctx, f :: fs =>
    match processFrame env ctx f with
    | .ok ctx2 =>
      match generate_frames_from env ctx2 fs with
      | .ok rest => .ok (ctx2 :: rest)
      | .error e => .error e
    | .error e => .error e

/-- The generator `generate_frames(header, frames, parser)`: starts from
`FrameGenCtx(header.palette)` (the `parser` argument is unused by the
source, which reads the module-level table). -/
def generate_frames (env : SmushEnv) (headerPalette : List Nat) (frames : List Frame) :
    Except String (List FrameGenCtx) :=
  generate_frames_from env { palette := headerPalette } frames

/-! Part 4: concrete instances used to evaluate the embedding on explicit
inputs. -/

/-- Environment whose codec registry implements nothing (`get_decoder`
always yields the `NotImplemented` sentinel) and whose inflate is the
identity. -/
def envNoCodec : SmushEnv where
  unobj := fun d => ({ x1 := 0, y1 := 0, x2 := 4, y2 := 4, codec := 37 }, d)
  getDecoder := fun _ => none
  inflate := fun d => .ok d

/-- A context with a populated screen, as after a successfully decoded
frame. -/
def ctx0 : FrameGenCtx := { palette := [1, 2, 3] }

/-- Walk oracle describing a concrete input: a container tag `A` appearing
twice, whose first occurrence holds one child `B` with an unsplittable
payload and whose second occurrence has an unsplittable payload itself.
Successive strict walks report: unknown tag `A`; unregistered child `B`
under `A`; unknown tag `B`; structural failure inside `B`; structural
failure inside the second `A`; then success. -/
def walkCE : Schema → Nat → WalkResult := fun s _ =>
  if slookup s "A" = none then .failure (.missingSchemaKey "A")
  else if slookup s "A" = some DUMMY then .failure (.missingSchemaEntry "A" "B")
  else if slookup s "B" = none then .failure (.missingSchemaKey "B")
  else if slookup s "B" = some DUMMY then .failure (.structural "B")
  else if slookup s "A" = some ({CTag.real "B"} : Finset CTag) then .failure (.structural "A")
  else .success

/-- Walk oracle for an input consisting of one data-leaf chunk `A`: the
first walk reports the unknown tag, after which the sentinel container
hypothesis for `A` happens to parse, so the walk succeeds with the
hypothesis never confirmed. -/
def walkC4 : Schema → Nat → WalkResult := fun s _ =>
  if slookup s "A" = none then .failure (.missingSchemaKey "A") else .success

/-- Walk oracle that always reports a structural failure inside tag `A`. -/
def walkS : Schema → Nat → WalkResult := fun _ _ => .failure (.structural "A")

/-! Part 5: helper lemmas. -/

/-- Lookup after a dict assignment. -/
theorem slookup_setKey (s : Schema) (t : String) (v : Finset CTag) (k : String) :
    slookup (setKey s t v) k = if k = t then some v else slookup s k := by
  induction s with
  | nil =>
    by_cases hkt : k = t
    · subst hkt; simp [setKey, slookup]
    · have htk : ¬ t = k := fun h => hkt h.symm
      simp [setKey, slookup, hkt, htk]
  | cons hd tl ih =>
    obtain ⟨k0, v0⟩ := hd
    by_cases h0 : k0 = t
    · subst h0
      by_cases hkt : k = k0
      · subst hkt; simp [setKey, slookup]
      · have h2 : ¬ k0 = k := fun h => hkt h.symm
        simp [setKey, slookup, hkt, h2]
    · by_cases hk0 : k0 = k
      · have hkt : ¬ k = t := fun h => h0 (hk0.trans h)
        simp [setKey, slookup, h0, hk0, hkt]
      · simp [setKey, slookup, h0, hk0, ih]

/-- Lookup misses every filtered list when it misses the original list. -/
theorem slookup_filter_none (p : String × Finset CTag → Bool) (s : Schema) (k : String)
    (h : slookup s k = none) : slookup (s.filter p) k = none := by
  induction s with
  | nil => simp [slookup]
  | cons hd tl ih =>
    obtain ⟨k0, v0⟩ := hd
    simp only [slookup] at h
    by_cases hk0 : k0 = k
    · simp [hk0] at h
    · rw [if_neg hk0] at h
      by_cases hp : p (k0, v0)
      · simp only [List.filter_cons, hp, if_pos, slookup]
        simpa [hk0] using ih h
      · simp only [List.filter_cons, hp]
        exact ih h

/-- A key absent from the key list is not found by lookup. -/
theorem slookup_eq_none_of_not_mem (s : Schema) (k : String)
    (h : k ∉ s.map Prod.fst) : slookup s k = none := by
  induction s with
  | nil => simp [slookup]
  | cons hd tl ih =>
    obtain ⟨k0, v0⟩ := hd
    simp only [List.map_cons, List.mem_cons] at h
    push_neg at h
    simp only [slookup]
    rw [if_neg (fun he => h.1 he.symm)]
    exact ih h.2

/-- The result of `clip 0 255` is nonnegative, hence so is `delta_color`. -/
theorem delta_color_nonneg (org_color delta : Int) : 0 ≤ delta_color org_color delta := by
  unfold delta_color clip_byte clip
  split_ifs <;> omega

/-- Both successful branches of `xpal` leave the screen field unchanged. -/
theorem xpal_ok_screen (ctx ctx2 : FrameGenCtx) (data : List Nat)
    (h : xpal ctx data = .ok ctx2) : ctx2.screen = ctx.screen := by
  unfold xpal at h
  split_ifs at h <;> simp_all <;> subst h <;> rfl

/-- A successful fold step on a chunk that is neither `FOBJ` nor `ZFOB`
leaves the screen field unchanged. -/
theorem frame_comp_step_ok_screen (env : SmushEnv) (ctx ctx2 : FrameGenCtx) (c : FrameComp)
    (h : frame_comp_step env ctx c = .ok ctx2)
    (hf : c.tag ≠ "FOBJ") (hz : c.tag ≠ "ZFOB") : ctx2.screen = ctx.screen := by
  unfold frame_comp_step at h
  by_cases h1 : c.tag = "NPAL"
  · rw [if_pos h1] at h
    cases h
    rfl
  · rw [if_neg h1] at h
    by_cases h2 : c.tag = "XPAL"
    · rw [if_pos h2] at h
      exact xpal_ok_screen ctx ctx2 c.data h
    · rw [if_neg h2, if_neg hz, if_neg hf] at h
      cases h
      rfl

/-- A successful child fold over chunks none of which is `FOBJ` or `ZFOB`
leaves the screen field unchanged. -/
theorem foldFrameComps_ok_screen (env : SmushEnv) :
    ∀ (cs : List FrameComp) (ctx ctx2 : FrameGenCtx),
      foldFrameComps env ctx cs = .ok ctx2 →
      (∀ c ∈ cs, c.tag ≠ "FOBJ" ∧ c.tag ≠ "ZFOB") → ctx2.screen = ctx.screen := by
  intro cs
  induction cs with
  | nil =>
    intro ctx ctx2 h _
    simp only [foldFrameComps] at h
    cases h
    rfl
  | cons c cs ih =>
    intro ctx ctx2 h hall
    simp only [foldFrameComps] at h
    cases hstep : frame_comp_step env ctx c with
    | error e => rw [hstep] at h; cases h
    | ok mid =>
      rw [hstep] at h
      have h1 := ih mid ctx2 h (fun d hd => hall d (List.mem_cons_of_mem c hd))
      have h2 := frame_comp_step_ok_screen env ctx mid c hstep
        (hall c (List.mem_cons_self c cs)).1 (hall c (List.mem_cons_self c cs)).2
      rw [h1, h2]

/-- A successful frame fold whose children contain neither `FOBJ` nor `ZFOB`
yields the incoming screen unchanged. -/
theorem processFrame_ok_screen (env : SmushEnv) (a b : FrameGenCtx) (fr : Frame)
    (h : processFrame env a fr = .ok b)
    (hall : ∀ c ∈ fr.children, c.tag ≠ "FOBJ" ∧ c.tag ≠ "ZFOB") : b.screen = a.screen := by
  unfold processFrame at h
  split at h
  · rename_i ctx2 hfold
    have hs := foldFrameComps_ok_screen env fr.children _ ctx2 hfold hall
    split at h
    · cases h
    · cases h
      exact hs
  · cases h

/-- Consecutive outputs of the frame loop are linked by `processFrame`: with
the starting context prepended, the context that the loop processes frame
`j` from is exactly entry `j` of that extended sequence, and the result is
output `j`. -/
theorem generate_frames_from_chain (env : SmushEnv) :
    ∀ (frames : List Frame) (ctx : FrameGenCtx) (out : List FrameGenCtx),
      generate_frames_from env ctx frames = .ok out →
      out.length = frames.length ∧
      ∀ (j : Nat) (a : FrameGenCtx) (fr : Frame) (b : FrameGenCtx),
        (ctx :: out)[j]? = some a → frames[j]? = some fr →
        out[j]? = some b → processFrame env a fr = .ok b := by
  intro frames
  induction frames with
  | nil =>
    intro ctx out h
    simp only [generate_frames_from] at h
    cases h
    refine ⟨rfl, ?_⟩
    intro j a fr b _ hf _
    simp at hf
  | cons f fs ih =>
    intro ctx out h
    simp only [generate_frames_from] at h
    split at h
    · rename_i ctx2 hp
      split at h
      · rename_i rest hr
        cases h
        obtain ⟨hlen, hchain⟩ := ih ctx2 rest hr
        refine ⟨by simp [hlen], ?_⟩
        intro j a fr b ha hf hb
        cases j with
        | zero =>
          simp only [List.getElem?_cons_zero, Option.some.injEq] at ha hf hb
          rw [← ha, ← hf, ← hb]
          exact hp
        | succ j =>
          simp only [List.getElem?_cons_succ] at ha hf hb
          exact hchain j a fr b ha hf hb
      · cases h
    · cases h

/-! Part 6: the claims. -/

/-- C1 counterexample: with every codec unimplemented, processing a `FOBJ`
chunk from a context whose screen is populated returns successfully but
with the screen cleared to `None`, not left unchanged. -/
theorem fobj_unimplemented_codec_ce :
    frame_comp_step envNoCodec ctx0 { tag := "FOBJ", data := [0] } =
      .ok { ctx0 with screen := none } ∧ ctx0.screen ≠ none := by
  decide

/-- C1 (amended): for every frame-object payload whose parsed header selects
a codec with no implemented decoder, processing the chunk raises no error
and the fold continues with the remaining chunks, but the screen field is
set to `None` (cleared), not left unchanged. -/
theorem fobj_unimplemented_codec_soft_skip (env : SmushEnv) (ctx : FrameGenCtx)
    (data : List Nat) (rest : List FrameComp)
    (h : env.getDecoder ((env.unobj data).1).codec = none) :
    foldFrameComps env ctx ({ tag := "FOBJ", data := data } :: rest) =
      foldFrameComps env { ctx with screen := none } rest := by
  have hconv : convert_fobj env data = none := by
    simp [convert_fobj, h]
  have hstep : frame_comp_step env ctx { tag := "FOBJ", data := data } =
      .ok { ctx with screen := none } := by
    simp [frame_comp_step, decode_frame_object, hconv]
  simp [foldFrameComps, hstep]

/-- C1 witness: the soft-skip theorem evaluated at a concrete unimplemented
codec environment. -/
theorem fobj_unimplemented_codec_soft_skip_witness :
    foldFrameComps envNoCodec ctx0 [{ tag := "FOBJ", data := [0, 1] }] =
      foldFrameComps envNoCodec { ctx0 with screen := none } [] :=
  fobj_unimplemented_codec_soft_skip envNoCodec ctx0 [0, 1] [] rfl

/-- C2 counterexample: a frame with no children at all (hence no chunk
producing a pixel payload) is not an error: the pipeline yields it, screen
still holding the dataclass default. -/
theorem empty_frame_not_fatal_ce :
    generate_frames envNoCodec [9] [{ children := [] }] =
      .ok [{ palette := [9], frame := some { children := [] } }] := rfl

/-- C2 (amended): a frame none of whose children produces a pixel payload
does not fail: the post-fold check rejects a frame only when the screen
field is `None` (which only a failed `FOBJ`/`ZFOB` decode produces); a frame
with no children is yielded with the inherited screen unchanged. -/
theorem processFrame_empty_children (env : SmushEnv) (ctx : FrameGenCtx) :
    processFrame env ctx { children := [] } =
      if ctx.screen = none then .error "AssertionError: ctx.screen is None"
      else .ok { ctx with frame := some { children := [] } } := by
  simp [processFrame, foldFrameComps]

/-- C5: `delta_color` is bit-exact the spec formula — clip to the byte range
of the rational floor of `(129 * org_color + delta) / 128`, for all
integers, floor semantics applied to the sum before the division. -/
theorem delta_color_floor_law (org_color delta : Int) :
    delta_color org_color delta =
      clip 0 255 ⌊((129 * org_color + delta : Int) : ℚ) / (128 : ℚ)⌋ := by
  have hfloor : ⌊((129 * org_color + delta : Int) : ℚ) / (128 : ℚ)⌋ =
      (129 * org_color + delta) / 128 := by
    exact_mod_cast Rat.floor_intCast_div_natCast (129 * org_color + delta) 128
  rw [hfloor]
  unfold delta_color clip_byte
  rw [Int.fdiv_eq_ediv _ (by norm_num)]

/-- C7: the compressed pixel path reads a big-endian 32-bit declared size,
fails hard when the inflated length differs from it, and otherwise equals
the uncompressed path applied to the inflated bytes on the same context. -/
theorem decode_compressed_equiv_uncompressed (env : SmushEnv) (ctx : FrameGenCtx)
    (data inflated : List Nat) (hlen : 4 ≤ data.length)
    (hinf : env.inflate (data.drop 4) = .ok inflated) :
    (inflated.length = beU32 (data.take 4) →
      decode_compressed_frame_object env ctx data =
        .ok (decode_frame_object env ctx inflated)) ∧
    (inflated.length ≠ beU32 (data.take 4) →
      decode_compressed_frame_object env ctx data =
        .error "AssertionError: decompressed size") := by
  unfold decode_compressed_frame_object
  rw [if_neg (by omega), hinf]
  constructor <;> intro h <;> simp [h]

/-- C7 witness: a 5-byte payload declaring size 1, with identity inflate,
decodes exactly like the uncompressed path on the inflated byte. -/
theorem decode_compressed_equiv_uncompressed_witness :
    decode_compressed_frame_object envNoCodec ctx0 [0, 0, 0, 1, 9] =
      .ok (decode_frame_object envNoCodec ctx0 [9]) :=
  (decode_compressed_equiv_uncompressed envNoCodec ctx0 [0, 0, 0, 1, 9] [9]
    (by decide) rfl).1 rfl

/-- C8: when a strict walk fails structurally with blame on tag `t`, the
engine raises the unsatisfiable-schema error if `t` is already a confirmed
data leaf and otherwise demotes `t` to a data leaf and retries the walk
from the saved stream position. -/
theorem structural_failure_demote_or_unsat (walk : Schema → Nat → WalkResult)
    (pos fuel : Nat) (schema : Schema) (t : String)
    (hw : walk schema pos = .failure (.structural t)) :
    (slookup schema t = some DATA →
      generate_schema_loop walk pos (fuel + 1) schema =
        .error "Cannot create schema for given file with given configuration") ∧
    (slookup schema t ≠ some DATA →
      generate_schema_loop walk pos (fuel + 1) schema =
        generate_schema_loop walk pos fuel (setKey schema t DATA)) := by
  constructor <;> intro h <;>
    simp [generate_schema_loop, hw, generate_schema_step, h]

/-- C8 witness: a structural failure blamed on a tag already recorded as a
data leaf stops the engine with the unsatisfiable-schema error. -/
theorem structural_failure_demote_or_unsat_witness :
    generate_schema_loop walkS 0 1 [("A", DATA)] =
      .error "Cannot create schema for given file with given configuration" :=
  (structural_failure_demote_or_unsat walkS 0 0 [("A", DATA)] "A" rfl).1 (by decide)

/-- C9: the read accessor of Element first seeks its payload view to the
start, so the bytes it returns do not depend on the prior cursor position,
and two consecutive reads with the same argument return the same bytes. -/
theorem element_read_idempotent (e : Element) (n : Option Nat) (c : Nat) :
    (Element.read (e.withStream ((Element.stream e).seek c)) n).1 =
      (Element.read e n).1 ∧
    (Element.read (Element.read e n).2 n).1 = (Element.read e n).1 := by
  cases e with
  | mk t o sz g cs s =>
    cases n <;>
      simp [Element.read, Element.stream, Element.withStream, StreamView.seek,
        StreamView.read]

/-- Lookup in the finalized schema, for key-distinct schemas (the engine
only ever builds dicts, whose keys are distinct): a sentinel entry is
dropped, any other entry is kept. -/
theorem slookup_finalize (s : Schema) (k : String) (hnd : (s.map Prod.fst).Nodup) :
    slookup (finalize_schema s) k =
      match slookup s k with
      | none => none
      | some v => if v = DUMMY then none else some v := by
  induction s with
  | nil => simp [finalize_schema, slookup]
  | cons hd tl ih =>
    obtain ⟨k0, v0⟩ := hd
    rw [List.map_cons, List.nodup_cons] at hnd
    have ih2 := ih hnd.2
    by_cases hv0 : v0 = DUMMY
    · subst hv0
      have hf : finalize_schema ((k0, DUMMY) :: tl) = finalize_schema tl := by
        simp [finalize_schema, List.filter_cons]
      rw [hf, ih2]
      by_cases hk0 : k0 = k
      · subst hk0
        have htl : slookup tl k0 = none := slookup_eq_none_of_not_mem tl k0 hnd.1
        simp [slookup, htl]
      · simp [slookup, hk0]
    · have hf : finalize_schema ((k0, v0) :: tl) = (k0, v0) :: finalize_schema tl := by
        simp [finalize_schema, List.filter_cons, hv0]
      rw [hf]
      by_cases hk0 : k0 = k
      · subst hk0
        simp [slookup, hv0]
      · simp [slookup, hk0, ih2]

/-- C3 counterexample: a coherent retry trace of the engine (tag `A` seen
twice: first occurrence holding one child `B` whose payload does not split,
second occurrence itself unsplittable).  The fifth refinement step rewrites
the recorded child set of `A` from the confirmed real-child set containing
`B` to the empty data-leaf set: the set shrinks, the shrink is not the
sentinel-to-empty-leaf conversion (the set was not the sentinel), and a tag
with a confirmed real child is demoted to a data leaf. -/
theorem schema_monotonicity_ce :
    (walkCE [] 0 = .failure (.missingSchemaKey "A")) ∧
    (generate_schema_step [] (.missingSchemaKey "A") = .ok [("A", DUMMY)]) ∧
    (walkCE [("A", DUMMY)] 0 = .failure (.missingSchemaEntry "A" "B")) ∧
    (generate_schema_step [("A", DUMMY)] (.missingSchemaEntry "A" "B") =
      .ok [("A", {CTag.real "B"})]) ∧
    (walkCE [("A", {CTag.real "B"})] 0 = .failure (.missingSchemaKey "B")) ∧
    (generate_schema_step [("A", {CTag.real "B"})] (.missingSchemaKey "B") =
      .ok [("A", {CTag.real "B"}), ("B", DUMMY)]) ∧
    (walkCE [("A", {CTag.real "B"}), ("B", DUMMY)] 0 = .failure (.structural "B")) ∧
    (generate_schema_step [("A", {CTag.real "B"}), ("B", DUMMY)] (.structural "B") =
      .ok [("A", {CTag.real "B"}), ("B", DATA)]) ∧
    (walkCE [("A", {CTag.real "B"}), ("B", DATA)] 0 = .failure (.structural "A")) ∧
    (generate_schema_step [("A", {CTag.real "B"}), ("B", DATA)] (.structural "A") =
      .ok [("A", DATA), ("B", DATA)]) ∧
    (generate_schema walkCE 0 6 = .ok [("A", DATA), ("B", DATA)]) ∧
    (slookup [("A", {CTag.real "B"}), ("B", DATA)] "A" = some {CTag.real "B"}) ∧
    (slookup [("A", DATA), ("B", DATA)] "A" = some DATA) ∧
    (¬ ({CTag.real "B"} : Finset CTag) ⊆ DATA) ∧
    (({CTag.real "B"} : Finset CTag) ≠ DUMMY) := by
  refine ⟨by decide, by decide, by decide, by decide, by decide, by decide, by decide,
    by decide, by decide, by decide, by decide, by decide, by decide, by decide, by decide⟩

/-- C3 (amended): each refinement step of the engine preserves every key
(keys are never removed), and a recorded child set changes only by growing,
by trading the sentinel marker for a real child, or by being reset to the
empty data-leaf set when a structural failure demotes the tag — the last of
which may discard confirmed real children.  The hypothesis `hwf` records
that the engine raises a missing-key failure only for tags absent from the
schema, as `map_chunks` does. -/
theorem generate_schema_step_monotone (s : Schema) (f : WalkFailure) (s2 : Schema)
    (h : generate_schema_step s f = .ok s2)
    (hwf : ∀ t, f = .missingSchemaKey t → slookup s t = none) :
    (∀ k v, slookup s k = some v → ∃ v2, slookup s2 k = some v2) ∧
    (∀ k v v2, slookup s k = some v → slookup s2 k = some v2 →
      v ⊆ v2 ∨ v2 = DATA ∨ ∃ t, v2 = (v \ DUMMY) ∪ {CTag.real t}) := by
  cases f with
  | missingSchemaKey t =>
    simp only [generate_schema_step] at h
    cases h
    have hnone := hwf t rfl
    have hkt : ∀ k v, slookup s k = some v → ¬ k = t := by
      intro k v hk he
      rw [he, hnone] at hk
      cases hk
    constructor
    · intro k v hk
      refine ⟨v, ?_⟩
      rw [slookup_setKey, if_neg (hkt k v hk)]
      exact hk
    · intro k v v2 hk hk2
      rw [slookup_setKey, if_neg (hkt k v hk), hk] at hk2
      cases hk2
      exact Or.inl (Finset.Subset.refl v)
  | missingSchemaEntry p t =>
    simp only [generate_schema_step] at h
    cases hsp : slookup s p with
    | none => rw [hsp] at h; cases h
    | some v0 =>
      rw [hsp] at h
      cases h
      constructor
      · intro k v hk
        rw [slookup_setKey]
        by_cases hkp : k = p
        · rw [if_pos hkp]
          exact ⟨_, rfl⟩
        · rw [if_neg hkp]
          exact ⟨v, hk⟩
      · intro k v v2 hk hk2
        rw [slookup_setKey] at hk2
        by_cases hkp : k = p
        · rw [if_pos hkp] at hk2
          cases hk2
          subst hkp
          rw [hsp] at hk
          cases hk
          exact Or.inr (Or.inr ⟨t, rfl⟩)
        · rw [if_neg hkp, hk] at hk2
          cases hk2
          exact Or.inl (Finset.Subset.refl v)
  | structural p =>
    simp only [generate_schema_step] at h
    by_cases hsp : slookup s p = some DATA
    · rw [if_pos hsp] at h
      cases h
    · rw [if_neg hsp] at h
      cases h
      constructor
      · intro k v hk
        rw [slookup_setKey]
        by_cases hkp : k = p
        · rw [if_pos hkp]
          exact ⟨_, rfl⟩
        · rw [if_neg hkp]
          exact ⟨v, hk⟩
      · intro k v v2 hk hk2
        rw [slookup_setKey] at hk2
        by_cases hkp : k = p
        · rw [if_pos hkp] at hk2
          cases hk2
          exact Or.inr (Or.inl rfl)
        · rw [if_neg hkp, hk] at hk2
          cases hk2
          exact Or.inl (Finset.Subset.refl v)

/-- C3 witness: the step theorem evaluated on the step that records child
`B` under the sentinel hypothesis for `A`. -/
theorem generate_schema_step_monotone_witness :
    ∃ v2, slookup [("A", ({CTag.real "B"} : Finset CTag))] "A" = some v2 :=
  (generate_schema_step_monotone [("A", DUMMY)] (.missingSchemaEntry "A" "B")
      [("A", ({CTag.real "B"} : Finset CTag))] (by decide)
      (fun _ ht => nomatch ht)).1 "A" DUMMY (by decide)

/-- C4 counterexample: a run in which tag `A` is hypothesized as a sentinel
container, never observed with a child, and the walk then succeeds: the
returned schema is empty — `A` is absent from the mapping, not present with
an empty child set. -/
theorem sentinel_dropped_ce :
    (walkC4 [] 0 = .failure (.missingSchemaKey "A")) ∧
    (generate_schema_step [] (.missingSchemaKey "A") = .ok [("A", DUMMY)]) ∧
    (walkC4 [("A", DUMMY)] 0 = .success) ∧
    (generate_schema walkC4 0 2 = .ok []) ∧
    (slookup ([] : Schema) "A" = none) := by
  decide

/-- C4 (amended): when a walk succeeds, the engine returns the current
schema with every still-sentinel entry removed entirely — such a tag is
absent from the returned mapping rather than present with an empty child
set — while every non-sentinel entry is kept unchanged. -/
theorem generate_schema_success_finalize (walk : Schema → Nat → WalkResult)
    (pos fuel : Nat) (s : Schema) (hnd : (s.map Prod.fst).Nodup)
    (hw : walk s pos = .success) :
    generate_schema_loop walk pos (fuel + 1) s = .ok (finalize_schema s) ∧
    (∀ k, slookup s k = some DUMMY → slookup (finalize_schema s) k = none) ∧
    (∀ k v, slookup s k = some v → v ≠ DUMMY →
      slookup (finalize_schema s) k = some v) := by
  refine ⟨by simp [generate_schema_loop, hw], ?_, ?_⟩
  · intro k hk
    rw [slookup_finalize s k hnd, hk]
    simp
  · intro k v hk hv
    rw [slookup_finalize s k hnd, hk]
    simp [hv]

/-- C4 witness: the finalize theorem evaluated on the one-sentinel schema. -/
theorem generate_schema_success_finalize_witness :
    generate_schema_loop walkC4 0 1 [("A", DUMMY)] =
      .ok (finalize_schema [("A", DUMMY)]) ∧
    slookup (finalize_schema [("A", DUMMY)]) "A" = none := by
  have h := generate_schema_success_finalize walkC4 0 0 [("A", DUMMY)] (by simp) rfl
  exact ⟨h.1, h.2.1 "A" (by decide)⟩

/-- C6: small-form XPAL — a 6-byte payload other than `00 00 00 01 00 00`
fails hard; with the marker present, a context whose `delta_pal` or
`palette` does not hold exactly `0x300` entries fails hard; otherwise the
call succeeds and the new palette satisfies the delta-color law
element-wise on every index. -/
theorem xpal_small_form_spec (ctx : FrameGenCtx) (data : List Nat)
    (hlen : data.length = 6) :
    (data ≠ [0, 0, 0, 1, 0, 0] → ∃ e, xpal ctx data = .error e) ∧
    (data = [0, 0, 0, 1, 0, 0] →
      ((ctx.delta_pal.length ≠ 0x300 ∨ ctx.palette.length ≠ 0x300) →
        ∃ e, xpal ctx data = .error e) ∧
      (ctx.delta_pal.length = 0x300 → ctx.palette.length = 0x300 →
        ∃ ctx2, xpal ctx data = .ok ctx2 ∧
          ∀ (i : Nat) (p : Nat) (d : Int),
            ctx.palette[i]? = some p → ctx.delta_pal[i]? = some d →
            ∃ m, ctx2.palette[i]? = some m ∧
              (m : Int) = delta_color (p : Int) d)) := by
  have hne : ¬ data.length = 0x300 * 3 + 4 := by omega
  constructor
  · intro hnm
    unfold xpal
    rw [if_neg hne, if_pos hlen, if_neg hnm]
    exact ⟨_, rfl⟩
  · intro hm
    constructor
    · intro hlens
      unfold xpal
      rw [if_neg hne, if_pos hlen, if_pos hm]
      by_cases hd : ctx.delta_pal.length = 0x300
      · rcases hlens with hd2 | hp
        · exact absurd hd hd2
        · rw [if_pos hd, if_neg hp]
          exact ⟨_, rfl⟩
      · rw [if_neg hd]
        exact ⟨_, rfl⟩
    · intro hd hp
      have heq : xpal ctx data = .ok { ctx with palette := ((ctx.palette.zip ctx.delta_pal).map (fun pd => (delta_color (pd.1 : Int) pd.2).toNat)) } := by
        unfold xpal
        rw [if_neg hne, if_pos hlen, if_pos hm, if_pos hd, if_pos hp]
      refine ⟨_, heq, ?_⟩
      intro i p d hpi hdi
      refine ⟨(delta_color (p : Int) d).toNat, ?_,
        Int.toNat_of_nonneg (delta_color_nonneg _ _)⟩
      have hz : (ctx.palette.zip ctx.delta_pal)[i]? = some (p, d) := by
        simp [List.getElem?_zip_eq_some, hpi, hdi]
      simp [List.getElem?_map, hz]

set_option maxRecDepth 100000 in
/-- C6 witness: the small-form theorem evaluated on a uniform 768-entry
palette and delta table. -/
theorem xpal_small_form_spec_witness :
    ∃ ctx2, xpal { palette := List.replicate 768 10, delta_pal := List.replicate 768 300 }
        [0, 0, 0, 1, 0, 0] = .ok ctx2 ∧
      ∀ (i : Nat) (p : Nat) (d : Int),
        (List.replicate 768 (10 : Nat))[i]? = some p →
        (List.replicate 768 (300 : Int))[i]? = some d →
        ∃ m, ctx2.palette[i]? = some m ∧ (m : Int) = delta_color (p : Int) d :=
  ((xpal_small_form_spec
      { palette := List.replicate 768 10, delta_pal := List.replicate 768 300 }
      [0, 0, 0, 1, 0, 0] rfl).2 rfl).2 (by simp) (by simp)

/-- C10: a successful run of the frame loop threads one context across
frame boundaries without resetting it: every output after the first arises
from the directly preceding output via `processFrame` (which only stamps
the new frame before folding its children), and a frame none of whose
children is a pixel payload chunk yields the previous screen — position and
pixel buffer — unchanged. -/
theorem generate_frames_threads_context (env : SmushEnv) (pal : List Nat)
    (frames : List Frame) (out : List FrameGenCtx)
    (h : generate_frames env pal frames = .ok out) :
    out.length = frames.length ∧
    ∀ (i : Nat) (a b : FrameGenCtx) (fr : Frame),
      out[i]? = some a → out[i + 1]? = some b → frames[i + 1]? = some fr →
      processFrame env a fr = .ok b ∧
      ((∀ c ∈ fr.children, c.tag ≠ "FOBJ" ∧ c.tag ≠ "ZFOB") →
        b.screen = a.screen) := by
  obtain ⟨hlen, hchain⟩ :=
    generate_frames_from_chain env frames { palette := pal } out h
  refine ⟨hlen, ?_⟩
  intro i a b fr ha hb hf
  have hp : processFrame env a fr = .ok b :=
    hchain (i + 1) a fr b (by simpa using ha) hf hb
  exact ⟨hp, fun hall => processFrame_ok_screen env a b fr hp hall⟩

/-- C10 witness: two consecutive childless frames; the second is produced
from the first by `processFrame`, keeping its screen. -/
theorem generate_frames_threads_context_witness :
    processFrame envNoCodec { palette := [9], frame := some { children := [] } }
        { children := [] } =
      .ok { palette := [9], frame := some { children := [] } } := by
  have h := generate_frames_threads_context envNoCodec [9]
      [{ children := [] }, { children := [] }]
      [{ palette := [9], frame := some { children := [] } },
       { palette := [9], frame := some { children := [] } }] rfl
  exact (h.2 0 _ _ _ rfl rfl rfl).1

end Nutcracker
